import Mathlib

/-!
Shallow embedding of the resty-chess board service (src/app/service.py,
src/app/models.py). The service wraps a `chess.Board` from the python-chess
library; only the library operations the service actually uses are modelled:
`parse_square`, `square_name`, `piece_at`, `set_piece_at`, `remove_piece_at`,
the `turn` flag, the standard starting position, and `fen()`.  The mutable
board is modelled by explicit state passing: each mutating service method
takes a `Board` and returns the post-call `Board` together with its result
(`Except` for the `ValueError` paths).
-/

namespace RestyChess

/-- Piece kinds, mirroring python-chess piece types PAWN..KING. -/
inductive PieceType where
  | pawn | knight | bishop | rook | queen | king
deriving DecidableEq, Repr

/-- A chess piece as python-chess represents it: a piece type and a color.
python-chess colors are booleans with WHITE = True, BLACK = False. -/
structure Piece where
  piece_type : PieceType
  color : Bool
deriving DecidableEq, Repr

/-- PIECE_TYPE_NAMES from service.py: piece types to human-readable names. -/
def PIECE_TYPE_NAMES : PieceType → String
  | .pawn => "pawn"
  | .knight => "knight"
  | .bishop => "bishop"
  | .rook => "rook"
  | .queen => "queen"
  | .king => "king"

/-- COLOR_NAMES from service.py: chess.WHITE ↦ "white", chess.BLACK ↦ "black". -/
def COLOR_NAMES (c : Bool) : String := if c then "white" else "black"

/-- PieceInfo from models.py: the serialized piece identity (strings). -/
structure PieceInfo where
  piece_type : String
  color : String
deriving DecidableEq, Repr

/-- Build the PieceInfo the service constructs from a board piece. -/
def pieceInfoOf (p : Piece) : PieceInfo :=
  { piece_type := PIECE_TYPE_NAMES p.piece_type, color := COLOR_NAMES p.color }

/-- The `chess.Board` state the service touches: the 64-square occupancy
table (square index 0 = a1, 7 = h1, 56 = a8, 63 = h8, as in chess.SQUARES),
the side-to-move flag, and the castling-rights bitboard (only read when
producing FEN; cleared per square by set/remove as python-chess does).
The en-passant square, halfmove clock and fullmove number of a fresh
`chess.Board` are None, 0 and 1 and no operation used by the service
changes them, so they appear as constants in `fen` below. -/
structure Board where
  pieces : Nat → Option Piece
  turn : Bool
  castling_rights : Nat

/-- chess.Board.piece_at: read the occupancy table. -/
def piece_at (b : Board) (sq : Nat) : Option Piece := b.pieces sq

/-- Clear bit `i` of a Nat bitboard (python: rights &= ~BB_SQUARES[sq]). -/
def clearBit (n i : Nat) : Nat := if n.testBit i then n - (1 <<< i) else n

/-- chess.Board.set_piece_at: overwrite the square with the piece; the
castling-rights bit of that square is cleared. -/
def set_piece_at (b : Board) (sq : Nat) (p : Piece) : Board :=
  { pieces := fun q => if q = sq then some p else b.pieces q
    turn := b.turn
    castling_rights := clearBit b.castling_rights sq }

/-- chess.Board.remove_piece_at: empty the square; the castling-rights bit
of that square is cleared. -/
def remove_piece_at (b : Board) (sq : Nat) : Board :=
  { pieces := fun q => if q = sq then none else b.pieces q
    turn := b.turn
    castling_rights := clearBit b.castling_rights sq }

/-- chess.FILE_NAMES. -/
def FILE_NAMES : List String := ["a", "b", "c", "d", "e", "f", "g", "h"]

/-- chess.RANK_NAMES. -/
def RANK_NAMES : List String := ["1", "2", "3", "4", "5", "6", "7", "8"]

/-- chess.square_name: file letter of sq % 8 followed by rank digit of
sq / 8 (python: FILE_NAMES[square_file(sq)] + RANK_NAMES[square_rank(sq)]). -/
def squareName (sq : Nat) : String :=
  FILE_NAMES.getD (sq % 8) "" ++ RANK_NAMES.getD (sq / 8) ""

/-- chess.parse_square: index of the name in SQUARE_NAMES; `none` models the
ValueError python's list.index raises for a name that is not a square. -/
def parse_square (s : String) : Option Nat :=
  (List.range 64).find? (fun i => squareName i == s)

/-- FEN symbol of a piece: uppercase for white, lowercase for black. -/
def pieceSymbol (p : Piece) : String :=
  match p.piece_type, p.color with
  | .pawn, true => "P"
  | .knight, true => "N"
  | .bishop, true => "B"
  | .rook, true => "R"
  | .queen, true => "Q"
  | .king, true => "K"
  | .pawn, false => "p"
  | .knight, false => "n"
  | .bishop, false => "b"
  | .rook, false => "r"
  | .queen, false => "q"
  | .king, false => "k"

/-- FEN encoding of one rank: the 8 squares file a..h, runs of empty squares
written as their count. -/
def rankFen (b : Board) (rank : Nat) : String :=
  let step := fun (acc : String × Nat) (file : Nat) =>
    match piece_at b (rank * 8 + file) with
    | some p => (acc.1 ++ (if acc.2 = 0 then "" else toString acc.2) ++ pieceSymbol p, 0)
    | none => (acc.1, acc.2 + 1)
  let r := (List.range 8).foldl step ("", 0)
  r.1 ++ (if r.2 = 0 then "" else toString r.2)

/-- chess.BaseBoard.board_fen: ranks 8 down to 1 joined by "/". -/
def boardFen (b : Board) : String :=
  String.intercalate "/" ((List.range 8).reverse.map (rankFen b))

/-- The castling field of the FEN: "KQkq" letters for the surviving
castling-rights bits at h1, a1, h8, a8, or "-" when none remain. -/
def castlingFen (b : Board) : String :=
  let s := (if b.castling_rights.testBit 7 then "K" else "")
        ++ (if b.castling_rights.testBit 0 then "Q" else "")
        ++ (if b.castling_rights.testBit 63 then "k" else "")
        ++ (if b.castling_rights.testBit 56 then "q" else "")
  if s = "" then "-" else s

/-- The six space-separated fields of chess.Board.fen(): placement, side to
move ("w"/"b"), castling, en-passant target, halfmove clock, fullmove
number.  The last three are constant here because the service never calls
push() and a fresh board has no en-passant square and clocks 0 / 1. -/
def fenFields (b : Board) : List String :=
  [boardFen b, if b.turn then "w" else "b", castlingFen b, "-", "0", "1"]

/-- chess.Board.fen(): the fields joined by single spaces. -/
def fen (b : Board) : String := String.intercalate " " (fenFields b)

/-- The dict returned by ChessBoardService.get_board_state: the "board"
key is a dict built by inserting chess.SQUARES (0..63) in order, so it is
modelled as the association list in that insertion order. -/
structure BoardState where
  board : List (String × Option PieceInfo)
  fen : String
  turn : String
deriving DecidableEq, Repr

/-- ChessBoardService.get_board_state: map every square (in chess.SQUARES
order 0..63) to the PieceInfo of its occupant or None, and add the FEN
string and the turn name. A pure read of the board. -/
def get_board_state (b : Board) : BoardState :=
  { board := (List.range 64).map (fun sq => (squareName sq, (piece_at b sq).map pieceInfoOf))
    fen := fen b
    turn := COLOR_NAMES b.turn }

/-- ChessBoardService.move_piece.  Returns the post-call board paired with
either the ValueError message or the (board_state, moved_piece,
captured_piece) result.  Every ValueError is raised before any mutation, so
the error branches return the input board unchanged.

On the boundary check: the source raises "Move is outside the board
boundaries" when `move not in pseudo_legal_moves` AND (from_sq > 63 or
to_sq > 63).  Every pseudo-legal move has both squares in 0..63, so the
conjunction is equivalent to `from_sq > 63 ∨ to_sq > 63` alone, which is
what is embedded; the pseudo-legal-move generator has no other effect on
the function's behaviour. -/
def move_piece (b : Board) (from_square to_square : String) :
    Board × Except String (BoardState × PieceInfo × Option PieceInfo) :=
  match parse_square from_square with
  | none => (b, Except.error (from_square ++ " is not in list"))
  | some from_sq =>
    match parse_square to_square with
    | none => (b, Except.error (to_square ++ " is not in list"))
    | some to_sq =>
      match piece_at b from_sq with
      | none => (b, Except.error ("No piece found at " ++ from_square))
      | some piece =>
        let moved_piece := pieceInfoOf piece
        let captured_piece := (piece_at b to_sq).map pieceInfoOf
        if from_sq > 63 ∨ to_sq > 63 then
          (b, Except.error "Move is outside the board boundaries")
        else
          let b1 := set_piece_at b to_sq piece
          let b2 := remove_piece_at b1 from_sq
          let b3 : Board := { b2 with turn := !b2.turn }
          (b3, Except.ok (get_board_state b3, moved_piece, captured_piece))

/-- ChessBoardService.remove_piece.  Returns the post-call board paired
with either the ValueError message or the (board_state, removed_piece)
result; the error branches precede any mutation. -/
def remove_piece (b : Board) (square : String) :
    Board × Except String (BoardState × PieceInfo) :=
  match parse_square square with
  | none => (b, Except.error (square ++ " is not in list"))
  | some sq =>
    match piece_at b sq with
    | none => (b, Except.error ("No piece found at " ++ square))
    | some piece =>
      let removed_piece := pieceInfoOf piece
      let b1 := remove_piece_at b sq
      (b1, Except.ok (get_board_state b1, removed_piece))

/-- One rank of the back row, files a..h, as in the standard setup. -/
def backRank (c : Bool) : List (Option Piece) :=
  [some ⟨.rook, c⟩, some ⟨.knight, c⟩, some ⟨.bishop, c⟩, some ⟨.queen, c⟩,
   some ⟨.king, c⟩, some ⟨.bishop, c⟩, some ⟨.knight, c⟩, some ⟨.rook, c⟩]

/-- One rank of pawns. -/
def pawnRank (c : Bool) : List (Option Piece) :=
  List.replicate 8 (some ⟨PieceType.pawn, c⟩)

/-- One empty rank. -/
def emptyRank : List (Option Piece) := List.replicate 8 none

/-- The 64-entry occupancy list of the standard starting position, indexed
a1..h1, a2..h2, ..., a8..h8. -/
def startingPieces : List (Option Piece) :=
  backRank true ++ pawnRank true ++ emptyRank ++ emptyRank ++
  emptyRank ++ emptyRank ++ pawnRank false ++ backRank false

/-- chess.Board(): the standard starting position, white to move, all four
castling rights (bits a1, h1, a8, h8 of the rights bitboard). -/
def startingBoard : Board :=
  { pieces := fun sq => startingPieces.getD sq none
    turn := true
    castling_rights := (1 <<< 0) + (1 <<< 7) + (1 <<< 56) + (1 <<< 63) }

/-- The API operations of main.py that reach the service singleton. -/
inductive Op where
  | getBoard
  | move (from_square to_square : String)
  | remove (square : String)

/-- What one request observes: a snapshot (with move/remove extras) or the
error message of a rejected operation. -/
inductive Response where
  | state (s : BoardState)
  | moved (s : BoardState) (moved_piece : PieceInfo) (captured_piece : Option PieceInfo)
  | removed (s : BoardState) (removed_piece : PieceInfo)
  | err (msg : String)
deriving DecidableEq, Repr

/-- One request against the shared board: dispatch to the service method
and keep the post-call board (unchanged on failure). -/
def step (b : Board) : Op → Board × Response
  | .getBoard => (b, Response.state (get_board_state b))
  | .move f t =>
    match move_piece b f t with
    | (b2, Except.ok (s, m, c)) => (b2, Response.moved s m c)
    | (b2, Except.error e) => (b2, Response.err e)
  | .remove s =>
    match remove_piece b s with
    | (b2, Except.ok (st, r)) => (b2, Response.removed st r)
    | (b2, Except.error e) => (b2, Response.err e)

/-- Run a sequence of requests against the board, successful or not. -/
def run (b : Board) : List Op → Board
  | [] => b
  | op :: rest => run (step b op).1 rest

/-- chess.SQUARE_NAMES: the 64 valid square names in index order
(rank-major: a1..h1, a2..h2, ..., a8..h8). -/
def SQUARE_NAMES : List String :=
  ["a1", "b1", "c1", "d1", "e1", "f1", "g1", "h1",
   "a2", "b2", "c2", "d2", "e2", "f2", "g2", "h2",
   "a3", "b3", "c3", "d3", "e3", "f3", "g3", "h3",
   "a4", "b4", "c4", "d4", "e4", "f4", "g4", "h4",
   "a5", "b5", "c5", "d5", "e5", "f5", "g5", "h5",
   "a6", "b6", "c6", "d6", "e6", "f6", "g6", "h6",
   "a7", "b7", "c7", "d7", "e7", "f7", "g7", "h7",
   "a8", "b8", "c8", "d8", "e8", "f8", "g8", "h8"]

/-- A parsed square name is a valid index (< 64) and is the name of that
index: parse_square inverts squareName on its domain. -/
theorem parse_square_some {s : String} {i : Nat} (h : parse_square s = some i) :
    i < 64 ∧ squareName i = s := by
  unfold parse_square at h
  have hmem := List.mem_of_find?_eq_some h
  have hpred := List.find?_some h
  exact ⟨List.mem_range.mp hmem, eq_of_beq hpred⟩

/-- Every valid square name has two characters. -/
theorem squareName_length : ∀ i, i < 64 → (squareName i).length = 2 := by decide

/-- Reading a square after set_piece_at. -/
theorem piece_at_set_piece_at (b : Board) (sq : Nat) (p : Piece) (q : Nat) :
    piece_at (set_piece_at b sq p) q = if q = sq then some p else piece_at b q := rfl

/-- Reading a square after remove_piece_at. -/
theorem piece_at_remove_piece_at (b : Board) (sq q : Nat) :
    piece_at (remove_piece_at b sq) q = if q = sq then none else piece_at b q := rfl

/-- The success path of move_piece in closed form: with both names parsed
and the source occupied, the result is the board after set-then-remove with
the turn negated, together with its snapshot, the moved piece's identity
and the optional identity of the previous occupant of the target. -/
theorem move_piece_ok_eq (b : Board) (fs ts : String) (i j : Nat) (p : Piece)
    (h1 : parse_square fs = some i) (h2 : parse_square ts = some j)
    (hp : piece_at b i = some p) :
    move_piece b fs ts =
      ({ remove_piece_at (set_piece_at b j p) i with turn := !b.turn },
       Except.ok
         (get_board_state { remove_piece_at (set_piece_at b j p) i with turn := !b.turn },
          pieceInfoOf p, (piece_at b j).map pieceInfoOf)) := by
  have hi : i < 64 := (parse_square_some h1).1
  have hj : j < 64 := (parse_square_some h2).1
  have hcond : ¬(i > 63 ∨ j > 63) := by omega
  simp only [move_piece, h1, h2, hp, if_neg hcond]
  rfl

/-- The success path of remove_piece in closed form. -/
theorem remove_piece_ok_eq (b : Board) (s : String) (i : Nat) (p : Piece)
    (h1 : parse_square s = some i) (hp : piece_at b i = some p) :
    remove_piece b s =
      (remove_piece_at b i,
       Except.ok (get_board_state (remove_piece_at b i), pieceInfoOf p)) := by
  simp only [remove_piece, h1, hp]

/-- C1 (amended: the two squares are distinct): for every pair of distinct
valid square names with the source occupied, move_piece succeeds, the
source is empty afterwards, the target holds the piece previously at the
source, and the turn indicator is flipped. -/
theorem C1_move_effect_distinct (b : Board) (fs ts : String) (i j : Nat) (p : Piece)
    (h1 : parse_square fs = some i) (h2 : parse_square ts = some j)
    (hij : i ≠ j) (hp : piece_at b i = some p) :
    (∃ c, (move_piece b fs ts).2 =
        Except.ok (get_board_state (move_piece b fs ts).1, pieceInfoOf p, c))
    ∧ piece_at (move_piece b fs ts).1 i = none
    ∧ piece_at (move_piece b fs ts).1 j = some p
    ∧ (move_piece b fs ts).1.turn = !b.turn := by
  rw [move_piece_ok_eq b fs ts i j p h1 h2 hp]
  refine ⟨⟨(piece_at b j).map pieceInfoOf, rfl⟩, ?_, ?_, rfl⟩
  · simp [piece_at, remove_piece_at, set_piece_at]
  · simp [piece_at, remove_piece_at, set_piece_at, Ne.symm hij]

/-- Witness for C1_move_effect_distinct at the concrete move e2 → e4 on
the starting board. -/
theorem C1_move_effect_distinct_witness :
    (parse_square "e2" = some 12 ∧ parse_square "e4" = some 28 ∧ (12 : Nat) ≠ 28
      ∧ piece_at startingBoard 12 = some ⟨PieceType.pawn, true⟩)
    ∧ ((∃ c, (move_piece startingBoard "e2" "e4").2 =
          Except.ok (get_board_state (move_piece startingBoard "e2" "e4").1,
            pieceInfoOf ⟨PieceType.pawn, true⟩, c))
       ∧ piece_at (move_piece startingBoard "e2" "e4").1 12 = none
       ∧ piece_at (move_piece startingBoard "e2" "e4").1 28 = some ⟨PieceType.pawn, true⟩
       ∧ (move_piece startingBoard "e2" "e4").1.turn = !startingBoard.turn) :=
  ⟨⟨by decide, by decide, by decide, by decide⟩,
   C1_move_effect_distinct startingBoard "e2" "e4" 12 28 ⟨PieceType.pawn, true⟩
     (by decide) (by decide) (by decide) (by decide)⟩

/-- C1 counterexample: on the starting board, ("e2", "e2") is a valid pair
with the source occupied and the call succeeds, yet afterwards the target
square (= e2) does not hold the piece previously at the source: it is
empty, because the source-clearing step runs after the placement. -/
theorem C1_same_square_counterexample :
    parse_square "e2" = some 12
    ∧ piece_at startingBoard 12 = some ⟨PieceType.pawn, true⟩
    ∧ (move_piece startingBoard "e2" "e2").2.isOk = true
    ∧ piece_at (move_piece startingBoard "e2" "e2").1 12 = none := by decide

/-- C2: for valid square names, move_piece with an empty source raises
"No piece found at {from_square}" and remove_piece on an empty square
raises "No piece found at {square}"; in both failure cases the returned
board is exactly the input board (no partial mutation of occupancy or
turn). -/
theorem C2_empty_square_errors (b : Board) (fs ts s : String) (i j k : Nat)
    (h1 : parse_square fs = some i) (h2 : parse_square ts = some j)
    (hi : piece_at b i = none)
    (h3 : parse_square s = some k) (hk : piece_at b k = none) :
    move_piece b fs ts = (b, Except.error ("No piece found at " ++ fs))
    ∧ remove_piece b s = (b, Except.error ("No piece found at " ++ s)) := by
  constructor
  · simp only [move_piece, h1, h2, hi]
  · simp only [remove_piece, h3, hk]

/-- Witness for C2_empty_square_errors: moving from the empty e4 and
removing from the empty a5 on the starting board. -/
theorem C2_empty_square_errors_witness :
    (parse_square "e4" = some 28 ∧ parse_square "e5" = some 36
      ∧ piece_at startingBoard 28 = none
      ∧ parse_square "a5" = some 32 ∧ piece_at startingBoard 32 = none)
    ∧ (move_piece startingBoard "e4" "e5"
        = (startingBoard, Except.error ("No piece found at " ++ "e4"))
       ∧ remove_piece startingBoard "a5"
        = (startingBoard, Except.error ("No piece found at " ++ "a5"))) :=
  ⟨⟨by decide, by decide, by decide, by decide, by decide⟩,
   C2_empty_square_errors startingBoard "e4" "e5" "a5" 28 36 32
     (by decide) (by decide) (by decide) (by decide) (by decide)⟩

/-- C3 (amended: the two squares are distinct): with the source occupied,
move_piece reports the previous occupant of the target as captured_piece
(absent when the target was empty), and afterwards the target holds
exactly the piece that was at the source. -/
theorem C3_capture_reporting (b : Board) (fs ts : String) (i j : Nat) (p : Piece)
    (h1 : parse_square fs = some i) (h2 : parse_square ts = some j)
    (hij : i ≠ j) (hp : piece_at b i = some p) :
    (move_piece b fs ts).2 =
      Except.ok (get_board_state (move_piece b fs ts).1, pieceInfoOf p,
        (piece_at b j).map pieceInfoOf)
    ∧ piece_at (move_piece b fs ts).1 j = some p := by
  rw [move_piece_ok_eq b fs ts i j p h1 h2 hp]
  refine ⟨rfl, ?_⟩
  simp [piece_at, remove_piece_at, set_piece_at, Ne.symm hij]

/-- Witness for C3_capture_reporting: the administrative capture e2 → d7
on the starting board takes the black pawn at d7. -/
theorem C3_capture_reporting_witness :
    (parse_square "e2" = some 12 ∧ parse_square "d7" = some 51 ∧ (12 : Nat) ≠ 51
      ∧ piece_at startingBoard 12 = some ⟨PieceType.pawn, true⟩
      ∧ (piece_at startingBoard 51).map pieceInfoOf
          = some { piece_type := "pawn", color := "black" })
    ∧ ((move_piece startingBoard "e2" "d7").2 =
        Except.ok (get_board_state (move_piece startingBoard "e2" "d7").1,
          pieceInfoOf ⟨PieceType.pawn, true⟩,
          (piece_at startingBoard 51).map pieceInfoOf)
       ∧ piece_at (move_piece startingBoard "e2" "d7").1 51
          = some ⟨PieceType.pawn, true⟩) :=
  ⟨⟨by decide, by decide, by decide, by decide, by decide⟩,
   C3_capture_reporting startingBoard "e2" "d7" 12 51 ⟨PieceType.pawn, true⟩
     (by decide) (by decide) (by decide) (by decide)⟩

/-- C3 counterexample: at the valid pair ("d7", "d7") both squares are
occupied (by the same black pawn) and the call succeeds, yet afterwards
the target square does not hold the piece that was at the source: it is
empty. -/
theorem C3_same_square_counterexample :
    parse_square "d7" = some 51
    ∧ piece_at startingBoard 51 = some ⟨PieceType.pawn, false⟩
    ∧ (move_piece startingBoard "d7" "d7").2.isOk = true
    ∧ piece_at (move_piece startingBoard "d7" "d7").1 51 = none := by decide

/-- C4: remove_piece on an occupied square empties exactly that square,
leaves every other square and the turn indicator unchanged, and returns
the removed piece's pre-call identity with the post-mutation snapshot. -/
theorem C4_remove_effect (b : Board) (s : String) (i : Nat) (p : Piece)
    (h1 : parse_square s = some i) (hp : piece_at b i = some p) :
    (remove_piece b s).2 =
      Except.ok (get_board_state (remove_piece b s).1, pieceInfoOf p)
    ∧ piece_at (remove_piece b s).1 i = none
    ∧ (∀ q, q ≠ i → piece_at (remove_piece b s).1 q = piece_at b q)
    ∧ (remove_piece b s).1.turn = b.turn := by
  rw [remove_piece_ok_eq b s i p h1 hp]
  refine ⟨rfl, ?_, ?_, rfl⟩
  · simp [piece_at, remove_piece_at]
  · intro q hq
    simp [piece_at, remove_piece_at, hq]

/-- Witness for C4_remove_effect: removing the white pawn at e2 from the
starting board (the other-squares clause checked at d2). -/
theorem C4_remove_effect_witness :
    (parse_square "e2" = some 12 ∧ piece_at startingBoard 12 = some ⟨PieceType.pawn, true⟩)
    ∧ ((remove_piece startingBoard "e2").2 =
        Except.ok (get_board_state (remove_piece startingBoard "e2").1,
          pieceInfoOf ⟨PieceType.pawn, true⟩)
       ∧ piece_at (remove_piece startingBoard "e2").1 12 = none
       ∧ (∀ q, q ≠ 12 → piece_at (remove_piece startingBoard "e2").1 q
            = piece_at startingBoard q)
       ∧ (remove_piece startingBoard "e2").1.turn = startingBoard.turn) :=
  ⟨⟨by decide, by decide⟩,
   C4_remove_effect startingBoard "e2" 12 ⟨PieceType.pawn, true⟩ (by decide) (by decide)⟩

/-- C9: the degenerate call move_piece(s, s) on an occupied square
succeeds, reports the occupant both as moved_piece and as captured_piece,
leaves s empty (the piece disappears: placement at s is undone by the
subsequent source-clearing at the same s), leaves every other square
unchanged, and toggles the turn indicator. -/
theorem C9_degenerate_move (b : Board) (s : String) (i : Nat) (p : Piece)
    (h1 : parse_square s = some i) (hp : piece_at b i = some p) :
    (move_piece b s s).2 =
      Except.ok (get_board_state (move_piece b s s).1, pieceInfoOf p,
        some (pieceInfoOf p))
    ∧ piece_at (move_piece b s s).1 i = none
    ∧ (∀ q, q ≠ i → piece_at (move_piece b s s).1 q = piece_at b q)
    ∧ (move_piece b s s).1.turn = !b.turn := by
  rw [move_piece_ok_eq b s s i i p h1 h1 hp]
  refine ⟨by rw [hp]; rfl, ?_, ?_, rfl⟩
  · simp [piece_at, remove_piece_at, set_piece_at]
  · intro q hq
    simp [piece_at, remove_piece_at, set_piece_at, hq]

/-- Witness for C9_degenerate_move: move_piece("e2", "e2") on the starting
board makes the white pawn at e2 vanish and flips the turn. -/
theorem C9_degenerate_move_witness :
    (parse_square "e2" = some 12 ∧ piece_at startingBoard 12 = some ⟨PieceType.pawn, true⟩)
    ∧ ((move_piece startingBoard "e2" "e2").2 =
        Except.ok (get_board_state (move_piece startingBoard "e2" "e2").1,
          pieceInfoOf ⟨PieceType.pawn, true⟩, some (pieceInfoOf ⟨PieceType.pawn, true⟩))
       ∧ piece_at (move_piece startingBoard "e2" "e2").1 12 = none
       ∧ (∀ q, q ≠ 12 → piece_at (move_piece startingBoard "e2" "e2").1 q
            = piece_at startingBoard q)
       ∧ (move_piece startingBoard "e2" "e2").1.turn = !startingBoard.turn) :=
  ⟨⟨by decide, by decide⟩,
   C9_degenerate_move startingBoard "e2" 12 ⟨PieceType.pawn, true⟩ (by decide) (by decide)⟩

/-- C5: for syntactically valid square names the boundary-error branch of
move_piece is unreachable — the call never returns "Move is outside the
board boundaries" — and whenever the source is occupied the move is
accepted with no chess-legality check. -/
theorem C5_boundary_unreachable (b : Board) (fs ts : String) (i j : Nat)
    (h1 : parse_square fs = some i) (h2 : parse_square ts = some j) :
    (move_piece b fs ts).2 ≠ Except.error "Move is outside the board boundaries"
    ∧ (∀ p, piece_at b i = some p →
        ∃ st c, (move_piece b fs ts).2 = Except.ok (st, pieceInfoOf p, c)) := by
  constructor
  · cases hcase : piece_at b i with
    | none =>
      simp only [move_piece, h1, h2, hcase]
      intro heq
      have hstr : "No piece found at " ++ fs = "Move is outside the board boundaries" :=
        Except.error.inj heq
      have hlen := congrArg String.length hstr
      rw [String.length_append] at hlen
      have hfs : fs.length = 2 := by
        rw [← (parse_square_some h1).2]
        exact squareName_length i (parse_square_some h1).1
      rw [hfs] at hlen
      exact absurd hlen (by decide)
    | some p =>
      rw [move_piece_ok_eq b fs ts i j p h1 h2 hcase]
      exact fun h => Except.noConfusion h
  · intro p hp
    rw [move_piece_ok_eq b fs ts i j p h1 h2 hp]
    exact ⟨_, _, rfl⟩

/-- Witness for C5_boundary_unreachable at the concrete pair ("e2", "e4")
on the starting board. -/
theorem C5_boundary_unreachable_witness :
    (parse_square "e2" = some 12 ∧ parse_square "e4" = some 28)
    ∧ ((move_piece startingBoard "e2" "e4").2
        ≠ Except.error "Move is outside the board boundaries"
       ∧ (∀ p, piece_at startingBoard 12 = some p →
           ∃ st c, (move_piece startingBoard "e2" "e4").2
             = Except.ok (st, pieceInfoOf p, c))) :=
  ⟨⟨by decide, by decide⟩,
   C5_boundary_unreachable startingBoard "e2" "e4" 12 28 (by decide) (by decide)⟩

/-- C6: the fresh board is the standard starting position with white to
move: the snapshot has 64 entries, e1 holds the white king, d8 the black
queen, the turn is "white", and the FEN string is the standard initial
position's. -/
theorem C6_initial_position :
    (get_board_state startingBoard).board.length = 64
    ∧ (get_board_state startingBoard).board.lookup "e1"
        = some (some { piece_type := "king", color := "white" })
    ∧ (get_board_state startingBoard).board.lookup "d8"
        = some (some { piece_type := "queen", color := "black" })
    ∧ (get_board_state startingBoard).turn = "white"
    ∧ (get_board_state startingBoard).fen
        = "rnbqkbnr/pppppppp/8/8/8/8/PPPPPPPP/RNBQKBNR w KQkq - 0 1" := by decide

/-- C7: get_board_state is a pure read: a getBoard request leaves the
board untouched, always answers with a state response (never an error),
and two consecutive getBoard requests with no intervening mutation return
identical snapshots (same mapping, same FEN string, same turn). -/
theorem C7_get_board_state_pure (b : Board) :
    (step b Op.getBoard).1 = b
    ∧ (step b Op.getBoard).2 = Response.state (get_board_state b)
    ∧ (step (step b Op.getBoard).1 Op.getBoard).2 = (step b Op.getBoard).2 :=
  ⟨rfl, rfl, rfl⟩

/-- C8: after any sequence of (successful or failed) requests, the
snapshot's board mapping enumerates exactly the 64 valid square names, in
the fixed rank-major order a1, b1, ..., h1, a2, ..., h8, and the snapshot
carries the FEN string and the turn indicator of the current board. -/
theorem C8_snapshot_shape (ops : List Op) :
    (get_board_state (run startingBoard ops)).board.map Prod.fst = SQUARE_NAMES
    ∧ (get_board_state (run startingBoard ops)).fen = fen (run startingBoard ops)
    ∧ (get_board_state (run startingBoard ops)).turn
        = COLOR_NAMES (run startingBoard ops).turn := by
  refine ⟨?_, rfl, rfl⟩
  show ((List.range 64).map fun sq =>
      (squareName sq, (piece_at (run startingBoard ops) sq).map pieceInfoOf)).map
      Prod.fst = SQUARE_NAMES
  rw [List.map_map]
  show (List.range 64).map squareName = SQUARE_NAMES
  decide

/-- C10: in every snapshot the "turn" field and the side-to-move field of
the FEN string agree, both being read off the same board turn flag: the
FEN is the space-joined field list whose second field is "w" exactly when
the snapshot's turn is "white" and "b" when it is "black". -/
theorem C10_fen_turn_agreement (b : Board) :
    (get_board_state b).fen = String.intercalate " " (fenFields b)
    ∧ (get_board_state b).turn = COLOR_NAMES b.turn
    ∧ (fenFields b).getD 1 "" = (if b.turn then "w" else "b")
    ∧ (fenFields b).getD 1 ""
        = (if (get_board_state b).turn = "white" then "w" else "b") := by
  refine ⟨rfl, rfl, rfl, ?_⟩
  have hf : (fenFields b).getD 1 "" = if b.turn then "w" else "b" := rfl
  have ht : (get_board_state b).turn = if b.turn then "white" else "black" := rfl
  cases hb : b.turn
  · rw [hf, ht, hb]
    rfl
  · rw [hf, ht, hb]
    rfl

end RestyChess
